import Mathlib

set_option autoImplicit false
set_option maxHeartbeats 1000000

/-!
Shallow embedding of `com/win32com/src/MiscTypes.cpp` (pywin32): the chained
COM wrapper type descriptors (`PyComTypeObject`, `PyComEnumTypeObject`,
`PyComEnumProviderTypeObject`), the `is_interface_type` classifier, and the
iterator-protocol slot functions (`iter` / `iternext`) of the two enumerator
adapters.

Machine-level details no stated property depends on (reference counting,
allocation failure, the function pointers held in unrelated type slots such as
`tp_dealloc`) are left out; CPython's thread-local pending-exception state is
modelled explicitly in `RtState`.
-/

/-- Identity of a runtime (type) object; pointer identity in CPython.
`pyType` is `&PyType_Type`, `interfaceType` is the file-static
`PyInterfaceType_Type` marker, `comType addr` is a `PyComTypeObject`
constructed by this module living at some address, and `hostType addr` is any
other host type object (e.g. the built-in `list` type). -/
inductive TypeRef : Type where
  | pyType
  | interfaceType
  | comType (addr : Nat)
  | hostType (addr : Nat)
deriving DecidableEq

/-- Entry of a C `PyMethodDef` table: a method name bound to an opaque
callable (`ml_meth` is kept as an abstract code address). -/
structure PyMethodDef : Type where
  ml_name : String
  ml_meth : Nat
deriving DecidableEq

/-- The `PyMethodChain` of `PythonCOM.h`: a method table plus a `link`
pointer to the base type's chain, which is NULL at the root.  `root ms`
embeds `{ms, NULL}` and `cons ms parent` embeds `{ms, &parent}`. -/
inductive PyMethodChain : Type where
  | root (methods : List PyMethodDef)
  | cons (methods : List PyMethodDef) (link : PyMethodChain)
deriving DecidableEq

/-- Builds a chain cell from a method table and an optional parent chain;
embeds the assignments `chain.methods = methodList; chain.link = pBase ?
&pBase->chain : NULL` of the `PyComTypeObject` constructor. -/
def PyMethodChain.make (methods : List PyMethodDef) :
    Option PyMethodChain → PyMethodChain
  | some parent => PyMethodChain.cons methods parent
  | Option.none => PyMethodChain.root methods

/-- Head method table of a chain cell. -/
def PyMethodChain.methods : PyMethodChain → List PyMethodDef
  | .root ms => ms
  | .cons ms _ => ms

/-- Identity of a `tp_iter` slot function defined in MiscTypes.cpp. -/
inductive IterFn : Type where
  | comEnumIter
  | comEnumProviderIter
deriving DecidableEq

/-- Identity of a `tp_iternext` slot function defined in MiscTypes.cpp. -/
inductive IternextFn : Type where
  | comEnumIternext
deriving DecidableEq

/-- The `Py_TPFLAGS_HAVE_ITER` capability bit (value `1 << 7` in the
Python 2 headers this file targets). -/
def Py_TPFLAGS_HAVE_ITER : Nat := 128

/-- The fields of a `PyComTypeObject` relevant to its observable behavior:
the `PyObject` head (`ob_type`), the `PyTypeObject` slots set by the
`type_template` or by the constructors (`tp_name`, `tp_basicsize`,
`tp_flags`, `tp_iter`, `tp_iternext`, `tp_base`), and the fields of the
derived C++ class (`chain`, `baseType`, `ctor`).  An inductive rather than a
structure because `baseType` is a back pointer to another
`PyComTypeObject`. -/
inductive PyComTypeObject : Type where
  | mk (ob_type : TypeRef) (tp_name : String) (tp_basicsize : Int)
      (tp_flags : Nat) (tp_iter : Option IterFn) (tp_iternext : Option IternextFn)
      (tp_base : Option TypeRef) (chain : PyMethodChain)
      (baseType : Option PyComTypeObject) (ctor : Nat)

def PyComTypeObject.ob_type : PyComTypeObject → TypeRef
  | .mk t _ _ _ _ _ _ _ _ _ => t

def PyComTypeObject.tp_name : PyComTypeObject → String
  | .mk _ n _ _ _ _ _ _ _ _ => n

def PyComTypeObject.tp_basicsize : PyComTypeObject → Int
  | .mk _ _ s _ _ _ _ _ _ _ => s

def PyComTypeObject.tp_flags : PyComTypeObject → Nat
  | .mk _ _ _ f _ _ _ _ _ _ => f

def PyComTypeObject.tp_iter : PyComTypeObject → Option IterFn
  | .mk _ _ _ _ i _ _ _ _ _ => i

def PyComTypeObject.tp_iternext : PyComTypeObject → Option IternextFn
  | .mk _ _ _ _ _ i _ _ _ _ => i

def PyComTypeObject.tp_base : PyComTypeObject → Option TypeRef
  | .mk _ _ _ _ _ _ b _ _ _ => b

def PyComTypeObject.chain : PyComTypeObject → PyMethodChain
  | .mk _ _ _ _ _ _ _ c _ _ => c

def PyComTypeObject.baseType : PyComTypeObject → Option PyComTypeObject
  | .mk _ _ _ _ _ _ _ _ b _ => b

def PyComTypeObject.ctor : PyComTypeObject → Nat
  | .mk _ _ _ _ _ _ _ _ _ c => c

/-- Embeds `PyComTypeObject::PyComTypeObject` (MiscTypes.cpp lines 37-97):
the whole object is first overwritten with the static `type_template`, whose
head is `PyObject_HEAD_INIT(&PyType_Type)`, whose slots are zero except the
`PyIBase` dispatch functions, and whose `tp_base` is `&PyInterfaceType_Type`;
then `chain.methods`, `chain.link`, `baseType`, `ctor`, `tp_name` and
`tp_basicsize` are assigned. -/
def PyComTypeObject.construct (name : String) (pBase : Option PyComTypeObject)
    (typeSize : Int) (methodList : List PyMethodDef) (thector : Nat) :
    PyComTypeObject :=
  PyComTypeObject.mk TypeRef.pyType name typeSize 0 Option.none Option.none
    (some TypeRef.interfaceType)
    (PyMethodChain.make methodList (pBase.map PyComTypeObject.chain))
    pBase thector

/-- The two fields of any `PyObject` that `is_interface_type` may read: its
type (`ob_type`) and, when the object is itself a type object, that type
object's `tp_base` slot. -/
structure PyObjectRec : Type where
  ob_type : TypeRef
  tp_base : Option TypeRef
deriving DecidableEq

/-- Embeds `PyComTypeObject::is_interface_type` (MiscTypes.cpp lines
102-110, `OLD_PYTHON_TYPES` not defined): `ob->ob_type == &PyType_Type &&
((PyTypeObject *)ob)->tp_base == &PyInterfaceType_Type`. -/
def is_interface_type (ob : PyObjectRec) : Bool :=
  ob.ob_type = TypeRef.pyType && ob.tp_base = some TypeRef.interfaceType

/-- View of a constructed type descriptor as a `PyObject` for
classification purposes. -/
def PyComTypeObject.asObject (t : PyComTypeObject) : PyObjectRec :=
  { ob_type := t.ob_type, tp_base := t.tp_base }

/-- Models the host-runtime fact about instance creation: an object created
through a wrapper type descriptor (by the descriptor's `ctor`) has as its
`ob_type` the descriptor itself — a `PyComTypeObject` living at some runtime
address — which is a different object from `PyType_Type`. -/
def wrappedInstance (descriptorAddr : Nat) : PyObjectRec :=
  { ob_type := TypeRef.comType descriptorAddr, tp_base := Option.none }

/-- Embeds `PyComEnumTypeObject::PyComEnumTypeObject` (MiscTypes.cpp lines
113-119): delegate to the `PyComTypeObject` constructor, then install both
iteration slots and set the `Py_TPFLAGS_HAVE_ITER` capability bit. -/
def PyComEnumTypeObject.construct (name : String) (pBase : Option PyComTypeObject)
    (typeSize : Int) (methodList : List PyMethodDef) (thector : Nat) :
    PyComTypeObject :=
  match PyComTypeObject.construct name pBase typeSize methodList thector with
  | .mk obT nm sz fl _ _ base ch bt ct =>
    PyComTypeObject.mk obT nm sz (fl ||| Py_TPFLAGS_HAVE_ITER)
      (some IterFn.comEnumIter) (some IternextFn.comEnumIternext) base ch bt ct

/-- A `PyComEnumProviderTypeObject`: the underlying descriptor plus the
configured `enum_method_name`. -/
structure PyComEnumProviderTypeObject : Type where
  toPyComTypeObject : PyComTypeObject
  enum_method_name : String

/-- Embeds `PyComEnumProviderTypeObject::PyComEnumProviderTypeObject`
(MiscTypes.cpp lines 158-171): delegate to the `PyComTypeObject`
constructor, record the method name, install only `tp_iter`
(`tp_iternext` remains NULL) and set the `Py_TPFLAGS_HAVE_ITER` bit. -/
def PyComEnumProviderTypeObject.construct (name : String)
    (pBase : Option PyComTypeObject) (typeSize : Int)
    (methodList : List PyMethodDef) (thector : Nat)
    (penum_method_name : String) : PyComEnumProviderTypeObject :=
  match PyComTypeObject.construct name pBase typeSize methodList thector with
  | .mk obT nm sz fl _ nx base ch bt ct =>
    { toPyComTypeObject :=
        PyComTypeObject.mk obT nm sz (fl ||| Py_TPFLAGS_HAVE_ITER)
          (some IterFn.comEnumProviderIter) nx base ch bt ct
      enum_method_name := penum_method_name }

/-- Modelled from the spec: chain lookup (the walk performed by
`Py_FindMethodInChain`, reached from `PyIBase::getattro`) is not part of this
source slice — only chain construction is.  Per spec 4.1, lookup "walks the
list from the given link toward the root, returning the first binding found
(derived overrides shadow base bindings) or a 'not found' result if
exhausted". -/
def PyMethodChain.lookup : PyMethodChain → String → Option PyMethodDef
  | .root ms, name => ms.find? (fun m => m.ml_name = name)
  | .cons ms link, name =>
    match ms.find? (fun m => m.ml_name = name) with
    | some m => some m
    | Option.none => link.lookup name

/-- Flattening of a chain into its method tables, most-derived-first; used
to give list-level specifications of `PyMethodChain.lookup`. -/
def PyMethodChain.tables : PyMethodChain → List (List PyMethodDef)
  | .root ms => [ms]
  | .cons ms link => ms :: link.tables

/-- First-match search over a flattened table list. -/
def tablesFind : List (List PyMethodDef) → String → Option PyMethodDef
  | [], _ => Option.none
  | ms :: rest, name =>
    match ms.find? (fun m => m.ml_name = name) with
    | some m => some m
    | Option.none => tablesFind rest name

/-- Arguments of one `PyComTypeObject.construct` call in a tower of wrapper
types. -/
structure TypeSpec : Type where
  name : String
  size : Int
  methods : List PyMethodDef
  thector : Nat

/-- Builds a tower of wrapper types through repeated descriptor
construction: each type is constructed with the previous one as its base,
the head of `base` (when present) being the base of the first. -/
def towerFrom (base : Option PyComTypeObject) :
    List TypeSpec → List PyComTypeObject
  | [] => []
  | sp :: rest =>
    let t := PyComTypeObject.construct sp.name base sp.size sp.methods sp.thector
    t :: towerFrom (some t) rest

/-! ## Runtime model for the iterator adapters -/

/-- A pending Python exception (the payload `PyErr_Occurred` reports). -/
inductive PyErr : Type where
  | stopIteration
  | typeError
  | attributeError
  | indexError
  | other (id : Nat)
deriving DecidableEq

/-- A Python object as far as the adapter code can observe it: the `Py_None`
singleton, an object supporting the sequence protocol with its items, a
sequence iterator as built by `PySeqIter_New`, the `PyOleEmpty` and
`PyOleMissing` sentinel singletons (MiscTypes.cpp lines 206-264: ordinary
objects of their own types, distinct from `Py_None`), or an opaque
non-sequence object. -/
inductive PyObj : Type where
  | Py_None
  | seq (items : List PyObj)
  | seqIter (items : List PyObj)
  | oleEmpty
  | oleMissing
  | obj (id : Nat)

/-- Embeds the pointer comparison `result == Py_None` against the `Py_None`
singleton. -/
def isPy_None : PyObj → Bool
  | .Py_None => true
  | _ => false

/-- Embeds `PySequence_Length`: item count for a sequence, `-1` (with a
`TypeError` raised, see `PySequence_GetItem` below for how the adapter then
proceeds) for anything else. -/
def PySequence_Length : PyObj → Int
  | .seq items => (items.length : Int)
  | _ => -1

/-- Embeds `PySequence_GetItem`: the `i`-th item of a sequence, an
`IndexError` failure when out of range, a `TypeError` failure on a
non-sequence. -/
def PySequence_GetItem (o : PyObj) (i : Nat) : Except PyErr PyObj :=
  match o with
  | .seq items =>
    match items[i]? with
    | some v => Except.ok v
    | Option.none => Except.error PyErr.indexError
  | _ => Except.error PyErr.typeError

/-- Embeds `PySeqIter_New` as the adapter uses it (always on a fresh empty
tuple): an iterator over the items of the given sequence. -/
def PySeqIter_New : PyObj → PyObj
  | .seq items => PyObj.seqIter items
  | _ => PyObj.seqIter []

/-- Models the host runtime advancing a sequence iterator
(`PySeqIter_Type`'s `tp_iternext`): the next item, or `none` — exhaustion,
not an error — when no items remain. -/
def PySeqIter_Next : PyObj → Option PyObj
  | .seqIter (x :: _) => some x
  | _ => Option.none

/-- Outcome of one invocation of the instance's own overridable iteration
hook (the virtual `PyIBase::iter`): a non-empty result, a failure (NULL
return with an exception raised), or silence (NULL return, no exception:
no user override). -/
inductive HookRes : Type where
  | value (v : PyObj)
  | fail (e : PyErr)
  | silent

/-- Python-level behavior of one wrapped instance, the quantities the slot
functions depend on: its own identity as an object, the outcome of the
`n`-th call of its overridable iteration hook, the outcome of
`PyObject_GetAttrString` for a method name, and the outcome of the `n`-th
`PyObject_Call` of the bound method of that name. -/
structure PyIBaseInstance : Type where
  selfObj : PyObj
  hook : Nat → HookRes
  getattr : String → Except PyErr Unit
  call : String → Nat → Except PyErr PyObj

/-- Interpreter state threaded through the slot functions: the pending
exception (`PyErr_Occurred`), and the cursors counting how many times the
instance's hook and its bound method have been invoked. -/
structure RtState : Type where
  err : Option PyErr
  hookCalls : Nat
  methodCalls : Nat
deriving DecidableEq

def RtState.init : RtState := { err := Option.none, hookCalls := 0, methodCalls := 0 }

/-- Models the host runtime materializing (and thereby clearing) the pending
exception between two slot invocations. -/
def RtState.clearErr (s : RtState) : RtState := { s with err := Option.none }

/-- Embeds the call `((PyIBase *)self)->iter()` shared by all three slot
functions: a non-empty hook result is returned with no exception raised; a
failing hook returns NULL and raises; a silent hook returns NULL and leaves
the exception state alone. -/
def hookCall (I : PyIBaseInstance) (s : RtState) : Option PyObj × RtState :=
  match I.hook s.hookCalls with
  | .value v => (some v, { s with hookCalls := s.hookCalls + 1 })
  | .fail e => (Option.none, { s with hookCalls := s.hookCalls + 1, err := some e })
  | .silent => (Option.none, { s with hookCalls := s.hookCalls + 1 })

/-- Result of a `tp_iter` slot call: either the C `assert` at its entry
fired (debug semantics of `assert(...)`), or a normal return of an object
pointer (possibly NULL) together with the updated interpreter state. -/
inductive AssertOr (α : Type) : Type where
  | assertViolation
  | ok (a : α)

/-- Embeds `PyComEnumTypeObject::iter` (MiscTypes.cpp lines 123-131):
`assert(!PyErr_Occurred())`, then defer to the instance's own hook; when the
hook returns something or raised, return that verbatim, otherwise return the
instance itself. -/
def PyComEnumTypeObject.iter (I : PyIBaseInstance) (s : RtState) :
    AssertOr (Option PyObj × RtState) :=
  if s.err.isSome then AssertOr.assertViolation
  else
    match hookCall I s with
    | (rc, s1) =>
      if rc.isSome || s1.err.isSome then AssertOr.ok (rc, s1)
      else AssertOr.ok (some I.selfObj, s1)

/-- Embeds `PyComEnumTypeObject::iternext` (MiscTypes.cpp lines 133-154):
defer to the hook; otherwise fetch the bound `"Next"` method, call it with
argument tuple `(1)`, propagate call failure, signal `StopIteration` when
the result has length 0, and otherwise return item 0 of the result. -/
def PyComEnumTypeObject.iternext (I : PyIBaseInstance) (s : RtState) :
    Option PyObj × RtState :=
  match hookCall I s with
  | (ret, s1) =>
    if ret.isSome || s1.err.isSome then (ret, s1)
    else
      match I.getattr "Next" with
      | Except.error e => (Option.none, { s1 with err := some e })
      | Except.ok _ =>
        match I.call "Next" s1.methodCalls with
        | Except.error e =>
          (Option.none,
            { s1 with methodCalls := s1.methodCalls + 1, err := some e })
        | Except.ok result =>
          let s2 := { s1 with methodCalls := s1.methodCalls + 1 }
          if PySequence_Length result = 0 then
            (Option.none, { s2 with err := some PyErr.stopIteration })
          else
            match PySequence_GetItem result 0 with
            | Except.ok v => (some v, s2)
            | Except.error e => (Option.none, { s2 with err := some e })

/-- Embeds `PyComEnumProviderTypeObject::iter` (MiscTypes.cpp lines
175-201): defer to the hook; otherwise fetch the bound method named by the
type's `enum_method_name`, call it with an empty argument tuple, and return
its result — with exactly one rewrite: a result that is the `Py_None`
singleton is replaced by a fresh `PySeqIter_New` over an empty tuple.  The
provider slot performs no entry assertion, so no state yields
`assertViolation`. -/
def PyComEnumProviderTypeObject.iter (t : PyComEnumProviderTypeObject)
    (I : PyIBaseInstance) (s : RtState) : AssertOr (Option PyObj × RtState) :=
  match hookCall I s with
  | (result, s1) =>
    if result.isSome || s1.err.isSome then AssertOr.ok (result, s1)
    else
      match I.getattr t.enum_method_name with
      | Except.error e => AssertOr.ok (Option.none, { s1 with err := some e })
      | Except.ok _ =>
        match I.call t.enum_method_name s1.methodCalls with
        | Except.error e =>
          AssertOr.ok (Option.none,
            { s1 with methodCalls := s1.methodCalls + 1, err := some e })
        | Except.ok result2 =>
          let s2 := { s1 with methodCalls := s1.methodCalls + 1 }
          if isPy_None result2 then
            AssertOr.ok (some (PySeqIter_New (PyObj.seq [])), s2)
          else
            AssertOr.ok (some result2, s2)

/-- Runs `n` successive `tp_iternext` slot calls, recording each call's
returned pointer and the exception it left pending; the runtime clears the
pending exception (materializing `StopIteration` or the error to the
caller) before the next call. -/
def runIternext (I : PyIBaseInstance) : Nat → RtState →
    List (Option PyObj × Option PyErr)
  | 0, _ => []
  | Nat.succ n, s =>
    match PyComEnumTypeObject.iternext I s with
    | (r, s1) => (r, s1.err) :: runIternext I n s1.clearErr

/-! ## Concrete instances used to instantiate the properties -/

/-- A well-behaved two-element COM enumerator: the hook is silent, `Next` is
present, and `Next(1)` yields `[obj 0]`, `[obj 1]`, then `[]` forever. -/
def WEnumInst : PyIBaseInstance :=
  { selfObj := PyObj.obj 7
  , hook := fun _ => HookRes.silent
  , getattr := fun _ => Except.ok ()
  , call := fun _ k =>
      if k = 0 then Except.ok (PyObj.seq [PyObj.obj 0])
      else if k = 1 then Except.ok (PyObj.seq [PyObj.obj 1])
      else Except.ok (PyObj.seq []) }

/-- An enumerator whose second `Next(1)` call fails. -/
def WFailInst : PyIBaseInstance :=
  { selfObj := PyObj.obj 7
  , hook := fun _ => HookRes.silent
  , getattr := fun _ => Except.ok ()
  , call := fun _ k =>
      if k = 0 then Except.ok (PyObj.seq [PyObj.obj 0])
      else Except.error (PyErr.other 13) }

/-- An instance on which every attribute lookup fails. -/
def WNoAttrInst : PyIBaseInstance :=
  { selfObj := PyObj.obj 7
  , hook := fun _ => HookRes.silent
  , getattr := fun _ => Except.error PyErr.attributeError
  , call := fun _ _ => Except.error PyErr.attributeError }

/-- An instance whose hook returns a non-empty value. -/
def WHookInst : PyIBaseInstance :=
  { selfObj := PyObj.obj 7
  , hook := fun _ => HookRes.value (PyObj.obj 3)
  , getattr := fun _ => Except.ok ()
  , call := fun _ _ => Except.ok (PyObj.seq []) }

/-- An enum provider whose configured method returns `Py_None`. -/
def WProvInst : PyIBaseInstance :=
  { selfObj := PyObj.obj 9
  , hook := fun _ => HookRes.silent
  , getattr := fun _ => Except.ok ()
  , call := fun _ _ => Except.ok PyObj.Py_None }

/-- An enum provider whose configured method returns the `PyOleEmpty`
sentinel. -/
def WProvEmptyInst : PyIBaseInstance :=
  { selfObj := PyObj.obj 9
  , hook := fun _ => HookRes.silent
  , getattr := fun _ => Except.ok ()
  , call := fun _ _ => Except.ok PyObj.oleEmpty }

/-- An enumerator whose `Next(1)` call returns a non-sequence object. -/
def WBadInst : PyIBaseInstance :=
  { selfObj := PyObj.obj 7
  , hook := fun _ => HookRes.silent
  , getattr := fun _ => Except.ok ()
  , call := fun _ _ => Except.ok (PyObj.obj 42) }

/-- A provider type descriptor configured with method name `"GetEnum"`. -/
def WProvType : PyComEnumProviderTypeObject :=
  PyComEnumProviderTypeObject.construct "PyIEnumProvider" Option.none 16 []
    3 "GetEnum"

/-- A two-level tower: a root binding `QueryInterface`, a derived type
binding `Next`. -/
def WSpecs : List TypeSpec :=
  [{ name := "PyIUnknown", size := 16,
     methods := [{ ml_name := "QueryInterface", ml_meth := 1 }], thector := 0 },
   { name := "PyIEnumVARIANT", size := 24,
     methods := [{ ml_name := "Next", ml_meth := 2 }], thector := 1 }]

/-! ## Helper lemmas -/

lemma PyMethodChain.make_tables (ms : List PyMethodDef)
    (ob : Option PyMethodChain) :
    (PyMethodChain.make ms ob).tables
      = ms :: ob.elim [] PyMethodChain.tables := by
  cases ob <;> rfl

lemma PyMethodChain.lookup_eq_tablesFind (c : PyMethodChain) (name : String) :
    c.lookup name = tablesFind c.tables name := by
  induction c with
  | root ms =>
    simp only [PyMethodChain.lookup, PyMethodChain.tables, tablesFind]
    cases ms.find? (fun m => m.ml_name = name) <;> rfl
  | cons ms link ih =>
    simp only [PyMethodChain.lookup, PyMethodChain.tables, tablesFind]
    cases ms.find? (fun m => m.ml_name = name) <;> simp [ih]

lemma tablesFind_isSome_iff (l : List (List PyMethodDef)) (name : String) :
    (tablesFind l name).isSome
      ↔ ∃ ms ∈ l, (ms.find? (fun m => m.ml_name = name)).isSome := by
  induction l with
  | nil => simp [tablesFind]
  | cons ms rest ih =>
    simp only [tablesFind]
    cases h : ms.find? (fun m => m.ml_name = name) with
    | none =>
      simp only [Option.isSome_none, ih]
      constructor
      · rintro ⟨t, ht, hf⟩
        exact ⟨t, List.mem_cons_of_mem _ ht, hf⟩
      · rintro ⟨t, ht, hf⟩
        rcases List.mem_cons.mp ht with rfl | ht
        · rw [h] at hf; simp at hf
        · exact ⟨t, ht, hf⟩
    | some m =>
      simp only [Option.isSome_some, true_iff]
      exact ⟨ms, List.mem_cons_self _ _, by rw [h]; rfl⟩

lemma towerFrom_length (base : Option PyComTypeObject) (specs : List TypeSpec) :
    (towerFrom base specs).length = specs.length := by
  induction specs generalizing base with
  | nil => rfl
  | cons sp rest ih => simp [towerFrom, ih]

lemma PyComTypeObject.chain_construct (name : String)
    (pBase : Option PyComTypeObject) (typeSize : Int)
    (methodList : List PyMethodDef) (thector : Nat) :
    (PyComTypeObject.construct name pBase typeSize methodList thector).chain
      = PyMethodChain.make methodList (pBase.map PyComTypeObject.chain) := rfl

lemma Option.map_chain_elim_tables (base : Option PyComTypeObject) :
    (base.map PyComTypeObject.chain).elim [] PyMethodChain.tables
      = base.elim [] (fun b => b.chain.tables) := by
  cases base <;> rfl

/-- Chains of tower members flatten to the reversed list of the method
tables supplied so far, on top of the base's flattened chain. -/
lemma towerFrom_chain_tables (specs : List TypeSpec) :
    ∀ (base : Option PyComTypeObject) (j : Nat) (t : PyComTypeObject),
      (towerFrom base specs)[j]? = some t →
      t.chain.tables
        = ((specs.take (j + 1)).reverse.map TypeSpec.methods)
            ++ base.elim [] (fun b => b.chain.tables) := by
  induction specs with
  | nil => intro base j t h; simp [towerFrom] at h
  | cons sp rest ih =>
    intro base j t h
    cases j with
    | zero =>
      simp only [towerFrom, List.getElem?_cons_zero, Option.some.injEq] at h
      subst h
      rw [PyComTypeObject.chain_construct, PyMethodChain.make_tables,
        Option.map_chain_elim_tables]
      simp
    | succ j =>
      simp only [towerFrom, List.getElem?_cons_succ] at h
      rw [ih _ j t h]
      simp only [Option.elim, PyComTypeObject.chain_construct,
        PyMethodChain.make_tables, Option.map_chain_elim_tables,
        List.take_succ_cons, List.reverse_cons, List.map_append,
        List.map_cons, List.map_nil, List.append_assoc, List.cons_append,
        List.nil_append]
      cases base <;> rfl

lemma providerIter_isOk (t : PyComEnumProviderTypeObject)
    (I : PyIBaseInstance) (s : RtState) :
    ∃ p, PyComEnumProviderTypeObject.iter t I s = AssertOr.ok p := by
  unfold PyComEnumProviderTypeObject.iter
  obtain ⟨rc, s1⟩ := hookCall I s
  dsimp only
  split
  · exact ⟨_, rfl⟩
  · cases I.getattr t.enum_method_name with
    | error e => exact ⟨_, rfl⟩
    | ok u =>
      cases I.call t.enum_method_name s1.methodCalls with
      | error e => exact ⟨_, rfl⟩
      | ok r2 =>
        dsimp only
        split
        · exact ⟨_, rfl⟩
        · exact ⟨_, rfl⟩

/-! ## Claims -/

/-- C1: for an enumerator-adapter instance whose `Next(1)` method yields the
sequences `[a]`, `[b]`, and from then on `[]` on successive calls, and whose
own iteration hook stays silent, `PyComEnumTypeObject::iter` returns the
instance itself, and successive `PyComEnumTypeObject::iternext` calls yield
`a`, then `b`, then signal exhaustion (`StopIteration`, not an error); a
fourth advance again signals exhaustion rather than yielding an item,
failing, or wrapping around. -/
theorem enum_adapter_yields_then_exhausts (I : PyIBaseInstance) (a b : PyObj)
    (hhook : ∀ n, I.hook n = HookRes.silent)
    (hattr : I.getattr "Next" = Except.ok ())
    (h0 : I.call "Next" 0 = Except.ok (PyObj.seq [a]))
    (h1 : I.call "Next" 1 = Except.ok (PyObj.seq [b]))
    (h2 : ∀ k, 2 ≤ k → I.call "Next" k = Except.ok (PyObj.seq [])) :
    PyComEnumTypeObject.iter I RtState.init
        = AssertOr.ok (some I.selfObj,
            { err := Option.none, hookCalls := 1, methodCalls := 0 })
      ∧ runIternext I 4 { err := Option.none, hookCalls := 1, methodCalls := 0 }
        = [(some a, Option.none), (some b, Option.none),
           (Option.none, some PyErr.stopIteration),
           (Option.none, some PyErr.stopIteration)] := by
  constructor
  · simp [PyComEnumTypeObject.iter, hookCall, hhook, RtState.init]
  · simp [runIternext, PyComEnumTypeObject.iternext, hookCall, hhook, hattr,
      h0, h1, h2 2 (by omega), h2 3 (by omega), RtState.clearErr,
      PySequence_Length, PySequence_GetItem]

/-- C1 witness: the property instantiated on the concrete two-element
enumerator `WEnumInst`. -/
theorem enum_adapter_yields_then_exhausts_witness :
    PyComEnumTypeObject.iter WEnumInst RtState.init
        = AssertOr.ok (some WEnumInst.selfObj,
            { err := Option.none, hookCalls := 1, methodCalls := 0 })
      ∧ runIternext WEnumInst 4
            { err := Option.none, hookCalls := 1, methodCalls := 0 }
        = [(some (PyObj.obj 0), Option.none), (some (PyObj.obj 1), Option.none),
           (Option.none, some PyErr.stopIteration),
           (Option.none, some PyErr.stopIteration)] :=
  enum_adapter_yields_then_exhausts WEnumInst (PyObj.obj 0) (PyObj.obj 1)
    (fun _ => rfl) rfl rfl rfl
    (fun k hk => by
      match k, hk with
      | (n + 2), _ => rfl)

/-- C3: an `iternext` call in which the `Next(1)` invocation fails — either
because the attribute lookup of `"Next"` fails, or because the call itself
fails — propagates that failure unchanged and yields no item; in
particular, when the second fetch fails the run yields `a` and then the
verbatim failure, with nothing beyond `a`. -/
theorem enum_adapter_propagates_fetch_failure (J I : PyIBaseInstance)
    (s : RtState) (e' e : PyErr) (a : PyObj) :
    (s.err = Option.none → J.hook s.hookCalls = HookRes.silent →
      J.getattr "Next" = Except.error e' →
      PyComEnumTypeObject.iternext J s
        = (Option.none, { s with hookCalls := s.hookCalls + 1, err := some e' }))
    ∧ ((∀ n, I.hook n = HookRes.silent) → I.getattr "Next" = Except.ok () →
      I.call "Next" 0 = Except.ok (PyObj.seq [a]) →
      I.call "Next" 1 = Except.error e →
      runIternext I 2 RtState.init
        = [(some a, Option.none), (Option.none, some e)]) := by
  constructor
  · intro herr hh hg
    simp [PyComEnumTypeObject.iternext, hookCall, hh, herr, hg]
  · intro hh hg h0 h1
    simp [runIternext, PyComEnumTypeObject.iternext, hookCall, hh, hg, h0, h1,
      RtState.clearErr, RtState.init, PySequence_Length, PySequence_GetItem]

/-- C3 witness: instantiated on `WNoAttrInst` (attribute lookup failure) and
`WFailInst` (second fetch fails). -/
theorem enum_adapter_propagates_fetch_failure_witness :
    PyComEnumTypeObject.iternext WNoAttrInst RtState.init
        = (Option.none,
            { err := some PyErr.attributeError, hookCalls := 1, methodCalls := 0 })
      ∧ runIternext WFailInst 2 RtState.init
        = [(some (PyObj.obj 0), Option.none),
           (Option.none, some (PyErr.other 13))] :=
  ⟨(enum_adapter_propagates_fetch_failure WNoAttrInst WFailInst RtState.init
      PyErr.attributeError (PyErr.other 13) (PyObj.obj 0)).1 rfl rfl rfl,
   (enum_adapter_propagates_fetch_failure WNoAttrInst WFailInst RtState.init
      PyErr.attributeError (PyErr.other 13) (PyObj.obj 0)).2
      (fun _ => rfl) rfl rfl rfl⟩

/-- C9: when `Next(1)` succeeds but returns a value whose length query
fails (`PySequence_Length` gives `-1`, which is not `0`), `iternext` does
not signal exhaustion: it takes the non-empty branch, attempts
`PySequence_GetItem(result, 0)`, and propagates the resulting `TypeError`
failure (not `StopIteration`) to the caller. -/
theorem enum_adapter_nonsequence_typeerror (I : PyIBaseInstance)
    (s : RtState) (v : PyObj)
    (herr : s.err = Option.none)
    (hhook : I.hook s.hookCalls = HookRes.silent)
    (hattr : I.getattr "Next" = Except.ok ())
    (hcall : I.call "Next" s.methodCalls = Except.ok v)
    (hlen : PySequence_Length v = -1) :
    PyComEnumTypeObject.iternext I s
        = (Option.none,
            { s with hookCalls := s.hookCalls + 1,
                     methodCalls := s.methodCalls + 1,
                     err := some PyErr.typeError })
      ∧ PyErr.typeError ≠ PyErr.stopIteration := by
  have hget : PySequence_GetItem v 0 = Except.error PyErr.typeError := by
    cases v <;> first
      | rfl
      | · exfalso
          simp only [PySequence_Length] at hlen
          omega
  refine ⟨?_, by simp⟩
  simp [PyComEnumTypeObject.iternext, hookCall, hhook, herr, hattr, hcall,
    hlen, hget]

/-- C9 witness: instantiated on `WBadInst`, whose `Next` returns the
non-sequence `obj 42`. -/
theorem enum_adapter_nonsequence_typeerror_witness :
    PyComEnumTypeObject.iternext WBadInst RtState.init
        = (Option.none,
            { err := some PyErr.typeError, hookCalls := 1, methodCalls := 1 })
      ∧ PyErr.typeError ≠ PyErr.stopIteration :=
  enum_adapter_nonsequence_typeerror WBadInst RtState.init (PyObj.obj 42)
    rfl rfl rfl rfl rfl

/-- C4: when the instance's own overridable iteration hook returns a
non-empty result or signals a failure, `iter` of both the enumerator
adapter and the provider adapter returns that result or failure verbatim,
and the generic path is never taken: the bound-method invocation counter is
left untouched (the configured or native method is invoked zero times). -/
theorem hook_override_short_circuits (I : PyIBaseInstance)
    (t : PyComEnumProviderTypeObject) (s : RtState) (v : PyObj) (e : PyErr)
    (herr : s.err = Option.none) :
    (I.hook s.hookCalls = HookRes.value v →
      PyComEnumTypeObject.iter I s
          = AssertOr.ok (some v, { s with hookCalls := s.hookCalls + 1 })
        ∧ PyComEnumProviderTypeObject.iter t I s
          = AssertOr.ok (some v, { s with hookCalls := s.hookCalls + 1 }))
    ∧ (I.hook s.hookCalls = HookRes.fail e →
      PyComEnumTypeObject.iter I s
          = AssertOr.ok (Option.none,
              { s with hookCalls := s.hookCalls + 1, err := some e })
        ∧ PyComEnumProviderTypeObject.iter t I s
          = AssertOr.ok (Option.none,
              { s with hookCalls := s.hookCalls + 1, err := some e })) := by
  constructor
  · intro hh
    constructor
    · simp [PyComEnumTypeObject.iter, hookCall, hh, herr]
    · simp [PyComEnumProviderTypeObject.iter, hookCall, hh, herr]
  · intro hh
    constructor
    · simp [PyComEnumTypeObject.iter, hookCall, hh, herr]
    · simp [PyComEnumProviderTypeObject.iter, hookCall, hh, herr]

/-- C4 witness: instantiated on `WHookInst`, whose hook returns `obj 3`:
both adapters return it and the method-call counter stays `0`. -/
theorem hook_override_short_circuits_witness :
    PyComEnumTypeObject.iter WHookInst RtState.init
        = AssertOr.ok (some (PyObj.obj 3),
            { err := Option.none, hookCalls := 1, methodCalls := 0 })
      ∧ PyComEnumProviderTypeObject.iter WProvType WHookInst RtState.init
        = AssertOr.ok (some (PyObj.obj 3),
            { err := Option.none, hookCalls := 1, methodCalls := 0 }) :=
  (hook_override_short_circuits WHookInst WProvType RtState.init
    (PyObj.obj 3) PyErr.typeError rfl).1 rfl

/-- C2: for a provider-adapter instance whose hook stays silent, when
invoking the configured method with no arguments succeeds and returns the
`Py_None` absence value, `iter` returns a fresh empty-sequence iterator
(`PySeqIter_New` over an empty tuple) — an object distinct from `Py_None`
that signals exhaustion on its first advance — and leaves no error
pending. -/
theorem provider_none_result_empty_iterator (t : PyComEnumProviderTypeObject)
    (I : PyIBaseInstance) (s : RtState)
    (herr : s.err = Option.none)
    (hhook : I.hook s.hookCalls = HookRes.silent)
    (hattr : I.getattr t.enum_method_name = Except.ok ())
    (hcall : I.call t.enum_method_name s.methodCalls = Except.ok PyObj.Py_None) :
    PyComEnumProviderTypeObject.iter t I s
        = AssertOr.ok (some (PyObj.seqIter []),
            { s with hookCalls := s.hookCalls + 1,
                     methodCalls := s.methodCalls + 1 })
      ∧ PyObj.seqIter [] ≠ PyObj.Py_None
      ∧ PySeqIter_Next (PyObj.seqIter []) = Option.none := by
  refine ⟨?_, fun h => PyObj.noConfusion h, rfl⟩
  simp [PyComEnumProviderTypeObject.iter, hookCall, hhook, herr, hattr,
    hcall, isPy_None, PySeqIter_New]

/-- C2 witness: instantiated on the provider type configured with
`"GetEnum"` and an instance whose `GetEnum` returns `Py_None`. -/
theorem provider_none_result_empty_iterator_witness :
    PyComEnumProviderTypeObject.iter WProvType WProvInst RtState.init
        = AssertOr.ok (some (PyObj.seqIter []),
            { err := Option.none, hookCalls := 1, methodCalls := 1 })
      ∧ PyObj.seqIter [] ≠ PyObj.Py_None
      ∧ PySeqIter_Next (PyObj.seqIter []) = Option.none :=
  provider_none_result_empty_iterator WProvType WProvInst RtState.init
    rfl rfl rfl rfl

/-- C8: the provider adapter's empty-iterator normalization fires only when
the configured method's successful result is the `Py_None` singleton; every
other successful result — the `PyOleEmpty` and `PyOleMissing` sentinel
instances included, and non-iterator objects too — is returned as-is. -/
theorem provider_normalizes_only_py_none (t : PyComEnumProviderTypeObject)
    (I : PyIBaseInstance) (s : RtState) (v : PyObj)
    (herr : s.err = Option.none)
    (hhook : I.hook s.hookCalls = HookRes.silent)
    (hattr : I.getattr t.enum_method_name = Except.ok ()) :
    (isPy_None v = false →
      I.call t.enum_method_name s.methodCalls = Except.ok v →
      PyComEnumProviderTypeObject.iter t I s
        = AssertOr.ok (some v,
            { s with hookCalls := s.hookCalls + 1,
                     methodCalls := s.methodCalls + 1 }))
    ∧ isPy_None PyObj.oleEmpty = false
    ∧ isPy_None PyObj.oleMissing = false
    ∧ (I.call t.enum_method_name s.methodCalls = Except.ok PyObj.Py_None →
      PyComEnumProviderTypeObject.iter t I s
        = AssertOr.ok (some (PySeqIter_New (PyObj.seq [])),
            { s with hookCalls := s.hookCalls + 1,
                     methodCalls := s.methodCalls + 1 })) := by
  refine ⟨?_, rfl, rfl, ?_⟩
  · intro hv hcall
    simp [PyComEnumProviderTypeObject.iter, hookCall, hhook, herr, hattr,
      hcall, hv]
  · intro hcall
    simp [PyComEnumProviderTypeObject.iter, hookCall, hhook, herr, hattr,
      hcall, isPy_None]

/-- C8 witness: a `GetEnum` returning the `PyOleEmpty` sentinel instance has
it passed through untouched (no empty-iterator substitution, no iterator
validation). -/
theorem provider_normalizes_only_py_none_witness :
    PyComEnumProviderTypeObject.iter WProvType WProvEmptyInst RtState.init
      = AssertOr.ok (some PyObj.oleEmpty,
          { err := Option.none, hookCalls := 1, methodCalls := 1 }) :=
  (provider_normalizes_only_py_none WProvType WProvEmptyInst RtState.init
    PyObj.oleEmpty rfl rfl rfl).1 rfl rfl

/-- C10: the enumerator adapter's `iter` asserts at entry that no error is
already pending (`assert(!PyErr_Occurred())`): the assertion fires exactly
when an error is pending, and under the precondition that none is, the only
outcomes are the hook's value, the hook's failure, or the instance itself.
The provider adapter's `iter` carries no such entry assertion: it never
yields an assertion violation, whatever the entry state. -/
theorem enum_iter_assert_precondition (I : PyIBaseInstance)
    (t : PyComEnumProviderTypeObject) (s : RtState) :
    ((PyComEnumTypeObject.iter I s = AssertOr.assertViolation)
        ↔ s.err.isSome = true)
    ∧ (s.err = Option.none →
        (∃ v s1, I.hook s.hookCalls = HookRes.value v
            ∧ PyComEnumTypeObject.iter I s = AssertOr.ok (some v, s1))
        ∨ (∃ e s1, I.hook s.hookCalls = HookRes.fail e
            ∧ PyComEnumTypeObject.iter I s = AssertOr.ok (Option.none, s1)
            ∧ s1.err = some e)
        ∨ (I.hook s.hookCalls = HookRes.silent
            ∧ ∃ s1, PyComEnumTypeObject.iter I s
                = AssertOr.ok (some I.selfObj, s1)))
    ∧ PyComEnumProviderTypeObject.iter t I s ≠ AssertOr.assertViolation := by
  refine ⟨⟨?_, ?_⟩, ?_, ?_⟩
  · intro hviol
    by_contra hno
    have herr : s.err = Option.none := by
      cases h : s.err
      · rfl
      · rw [h] at hno; exact absurd rfl hno
    rw [PyComEnumTypeObject.iter] at hviol
    rw [herr] at hviol
    simp only [Option.isSome_none, Bool.false_eq_true, if_false] at hviol
    rcases hk : hookCall I s with ⟨rc, s1⟩
    rw [hk] at hviol
    by_cases hc : (rc.isSome || s1.err.isSome) = true <;>
      simp [hc] at hviol
  · intro h
    simp [PyComEnumTypeObject.iter, h]
  · intro herr
    cases hh : I.hook s.hookCalls with
    | value v =>
      refine Or.inl ⟨v, { s with hookCalls := s.hookCalls + 1 }, rfl, ?_⟩
      simp [PyComEnumTypeObject.iter, hookCall, hh, herr]
    | fail e =>
      refine Or.inr (Or.inl
        ⟨e, { s with hookCalls := s.hookCalls + 1, err := some e },
          rfl, ?_, rfl⟩)
      simp [PyComEnumTypeObject.iter, hookCall, hh, herr]
    | silent =>
      refine Or.inr (Or.inr
        ⟨rfl, { s with hookCalls := s.hookCalls + 1 }, ?_⟩)
      simp [PyComEnumTypeObject.iter, hookCall, hh, herr]
  · obtain ⟨p, hp⟩ := providerIter_isOk t I s
    rw [hp]
    exact fun h => AssertOr.noConfusion h

/-- C10 witness: with a `TypeError` pending at entry the enumerator
adapter's `iter` hits its assertion, while the provider adapter's `iter`
does not. -/
theorem enum_iter_assert_precondition_witness :
    PyComEnumTypeObject.iter WEnumInst
        { err := some PyErr.typeError, hookCalls := 0, methodCalls := 0 }
      = AssertOr.assertViolation
    ∧ PyComEnumProviderTypeObject.iter WProvType WEnumInst
        { err := some PyErr.typeError, hookCalls := 0, methodCalls := 0 }
      ≠ AssertOr.assertViolation :=
  ⟨(enum_iter_assert_precondition WEnumInst WProvType
      { err := some PyErr.typeError, hookCalls := 0, methodCalls := 0 }).1.mpr
      rfl,
   (enum_iter_assert_precondition WEnumInst WProvType
      { err := some PyErr.typeError, hookCalls := 0, methodCalls := 0 }).2.2⟩

/-- C6: the enumerator specialization's constructor installs both
iterator-protocol entry points (`tp_iter` and `tp_iternext`) and sets the
`Py_TPFLAGS_HAVE_ITER` capability bit in the type's dispatch record, while
the enumerator-provider specialization's constructor installs only
`tp_iter`, sets the same bit, and leaves `tp_iternext` absent (NULL). -/
theorem enum_and_provider_slot_installation (name : String)
    (pBase : Option PyComTypeObject) (typeSize : Int)
    (methodList : List PyMethodDef) (thector : Nat) (penum : String) :
    (PyComEnumTypeObject.construct name pBase typeSize methodList
        thector).tp_iter = some IterFn.comEnumIter
    ∧ (PyComEnumTypeObject.construct name pBase typeSize methodList
        thector).tp_iternext = some IternextFn.comEnumIternext
    ∧ (PyComEnumTypeObject.construct name pBase typeSize methodList
        thector).tp_flags &&& Py_TPFLAGS_HAVE_ITER = Py_TPFLAGS_HAVE_ITER
    ∧ (PyComEnumProviderTypeObject.construct name pBase typeSize methodList
        thector penum).toPyComTypeObject.tp_iter
      = some IterFn.comEnumProviderIter
    ∧ (PyComEnumProviderTypeObject.construct name pBase typeSize methodList
        thector penum).toPyComTypeObject.tp_iternext = Option.none
    ∧ (PyComEnumProviderTypeObject.construct name pBase typeSize methodList
        thector penum).toPyComTypeObject.tp_flags &&& Py_TPFLAGS_HAVE_ITER
      = Py_TPFLAGS_HAVE_ITER := by
  refine ⟨rfl, rfl, ?_, rfl, rfl, ?_⟩ <;>
    simp [PyComEnumTypeObject.construct, PyComEnumProviderTypeObject.construct,
      PyComTypeObject.construct, PyComTypeObject.tp_flags]

/-- C5 counterexample: `is_interface_type` applied to an instance created
through a constructed descriptor — an object whose `ob_type` is the
descriptor itself, not `PyType_Type` — returns `false`, refuting the claim
that it returns `true` for any such instance: the classifier recognizes the
wrapper *type objects*, not their instances. -/
theorem wrapped_instance_not_interface_type :
    is_interface_type (wrappedInstance 0) = false := rfl

/-- C5 (amended): `is_interface_type` returns `true` for any type
descriptor built by the `PyComTypeObject` constructor (the classification
reads the stable `tp_base = &PyInterfaceType_Type` marker installed by the
constructor's template together with `ob_type = &PyType_Type`), and `false`
for any value not constructed this way — any non-type value, any
host-native type whose base is not the interface-type marker, and in
particular any instance created through a descriptor. -/
theorem is_interface_type_classifies_descriptors (name : String)
    (pBase : Option PyComTypeObject) (typeSize : Int)
    (methodList : List PyMethodDef) (thector : Nat) (ob : PyObjectRec) :
    is_interface_type (PyComTypeObject.construct name pBase typeSize
        methodList thector).asObject = true
    ∧ (ob.ob_type ≠ TypeRef.pyType ∨ ob.tp_base ≠ some TypeRef.interfaceType →
        is_interface_type ob = false)
    ∧ (∀ addr, is_interface_type (wrappedInstance addr) = false) := by
  refine ⟨rfl, ?_, fun _ => rfl⟩
  intro h
  rcases h with h | h <;> simp [is_interface_type, h]

/-- C5 witness: a freshly constructed descriptor classifies `true`; an
ordinary host value (its type a host type, not `PyType_Type`) classifies
`false`. -/
theorem is_interface_type_classifies_descriptors_witness :
    is_interface_type (PyComTypeObject.construct "PyIUnknown" Option.none
        16 [] 3).asObject = true
    ∧ is_interface_type
        { ob_type := TypeRef.hostType 5, tp_base := Option.none } = false :=
  ⟨(is_interface_type_classifies_descriptors "PyIUnknown" Option.none 16 [] 3
      { ob_type := TypeRef.hostType 5, tp_base := Option.none }).1,
   (is_interface_type_classifies_descriptors "PyIUnknown" Option.none 16 [] 3
      { ob_type := TypeRef.hostType 5, tp_base := Option.none }).2.1
      (Or.inl (by simp))⟩

/-- C7: in a tower of wrapper types built by repeated descriptor
construction (each chain cell holding its own method table and a link to
the parent's cell, NULL at the root), a name bound only at level `k` is
found from every level `j ≥ k` and is not found from any level `j < k`;
and a binding in the most-derived table of level `j` always shadows any
base binding of the same name, because the walk is most-derived-first and
returns the first match. -/
theorem chain_lookup_depth_and_shadowing (specs : List TypeSpec)
    (k j : Nat) (name : String) (Tj : PyComTypeObject)
    (hTj : (towerFrom Option.none specs)[j]? = some Tj)
    (hbound : ∃ sp, specs[k]? = some sp
        ∧ (sp.methods.find? (fun m => m.ml_name = name)).isSome)
    (honly : ∀ i sp, i ≠ k → specs[i]? = some sp →
        sp.methods.find? (fun m => m.ml_name = name) = Option.none) :
    ((Tj.chain.lookup name).isSome ↔ k ≤ j)
    ∧ (∀ (name2 : String) (sp : TypeSpec) (m : PyMethodDef),
        specs[j]? = some sp →
        sp.methods.find? (fun m2 => m2.ml_name = name2) = some m →
        Tj.chain.lookup name2 = some m) := by
  have htab := towerFrom_chain_tables specs Option.none j Tj hTj
  simp only [Option.elim, List.append_nil] at htab
  constructor
  · rw [PyMethodChain.lookup_eq_tablesFind, htab, tablesFind_isSome_iff]
    constructor
    · rintro ⟨ms, hmem, hfind⟩
      rw [List.mem_map] at hmem
      obtain ⟨sp, hsp, rfl⟩ := hmem
      rw [List.mem_reverse] at hsp
      obtain ⟨i, hi⟩ := List.mem_iff_getElem?.mp hsp
      have hlen : i < (specs.take (j + 1)).length :=
        (List.getElem?_eq_some_iff.mp hi).1
      have hilt : i < j + 1 :=
        lt_of_lt_of_le hlen (by rw [List.length_take]; exact min_le_left _ _)
      rw [List.getElem?_take_of_lt hilt] at hi
      by_cases hik : i = k
      · omega
      · rw [honly i sp hik hi] at hfind
        simp at hfind
    · intro hkj
      obtain ⟨sp, hsp, hfind⟩ := hbound
      refine ⟨sp.methods, ?_, hfind⟩
      rw [List.mem_map]
      refine ⟨sp, ?_, rfl⟩
      rw [List.mem_reverse]
      exact List.mem_iff_getElem?.mpr
        ⟨k, by rw [List.getElem?_take_of_lt (by omega)]; exact hsp⟩
  · intro name2 sp m hspj hfind
    rw [PyMethodChain.lookup_eq_tablesFind, htab]
    have htake : specs.take (j + 1) = specs.take j ++ [sp] := by
      rw [List.take_succ, hspj]
      rfl
    rw [htake]
    simp only [List.reverse_append, List.reverse_cons, List.reverse_nil,
      List.nil_append, List.singleton_append, List.map_cons]
    simp [tablesFind, hfind]

/-- The root member of the concrete two-level tower `WSpecs`. -/
def WT0 : PyComTypeObject :=
  PyComTypeObject.construct "PyIUnknown" Option.none 16
    [{ ml_name := "QueryInterface", ml_meth := 1 }] 0

/-- The derived member of the concrete two-level tower `WSpecs`. -/
def WT1 : PyComTypeObject :=
  PyComTypeObject.construct "PyIEnumVARIANT" (some WT0) 24
    [{ ml_name := "Next", ml_meth := 2 }] 1

/-- C7 witness: in the concrete tower, `"Next"` (bound only at level 1) is
found from level 1, not found from level 0, and the level-1 binding is the
one returned. -/
theorem chain_lookup_depth_and_shadowing_witness :
    ((WT1.chain.lookup "Next").isSome ↔ 1 ≤ 1)
    ∧ ((WT0.chain.lookup "Next").isSome ↔ 1 ≤ 0)
    ∧ WT1.chain.lookup "Next" = some { ml_name := "Next", ml_meth := 2 } := by
  have honly : ∀ i sp, i ≠ 1 → WSpecs[i]? = some sp →
      sp.methods.find? (fun m => m.ml_name = "Next") = Option.none := by
    intro i sp hi hsp
    match i, hsp with
    | 0, hsp =>
      injection hsp with h
      subst h
      rfl
    | 1, hsp => exact absurd rfl hi
    | (n + 2), hsp => simp [WSpecs] at hsp
  have hbound : ∃ sp, WSpecs[1]? = some sp
      ∧ (sp.methods.find? (fun m => m.ml_name = "Next")).isSome :=
    ⟨{ name := "PyIEnumVARIANT", size := 24,
       methods := [{ ml_name := "Next", ml_meth := 2 }], thector := 1 },
     rfl, rfl⟩
  refine ⟨(chain_lookup_depth_and_shadowing WSpecs 1 1 "Next" WT1 rfl
      hbound honly).1,
    (chain_lookup_depth_and_shadowing WSpecs 1 0 "Next" WT0 rfl
      hbound honly).1,
    (chain_lookup_depth_and_shadowing WSpecs 1 1 "Next" WT1 rfl
      hbound honly).2 "Next"
      { name := "PyIEnumVARIANT", size := 24,
        methods := [{ ml_name := "Next", ml_meth := 2 }], thector := 1 }
      { ml_name := "Next", ml_meth := 2 } rfl rfl⟩
